import Mathlib

/-!
Verification of the vault security subsystem of the password-management
browser extension: the master-password service (SecurityServiceImpl in
master-password-service.ts), the password storage collaborator
(ChromeStoragePasswordService in password-service.ts) and the backup
cipher (EncryptionService in encryption-service.ts).

Modelling conventions:
- CryptoJS.PBKDF2 with the fixed application salt is modelled as an ideal
  (injective, deterministic) key-derivation function: a derived value is
  represented symbolically by the pair of its inputs.
- CryptoJS.AES passphrase encryption is modelled symbolically: a ciphertext
  token records the key and the payload; decryption succeeds exactly on a
  token produced under the same key, and fails (the code path that returns
  null / an empty string after the UTF-8 decode of garbage) otherwise.
- Date.now() is passed in as an explicit Nat parameter; setTimeout handles
  are modelled by the Option of the scheduled minutes.
- localStorage and chrome.storage.local are modelled as fields of a Storage
  record; a fallible chrome.storage.local.set is modelled by an explicit
  Bool oracle parameter on the one operation whose behaviour depends on it.
-/

deriving instance DecidableEq for Except

namespace Vault

/-- Output of CryptoJS.PBKDF2(input, salt) at the fixed parameters used
throughout the service (keySize 256/32, iterations 10000), modelled as an
ideal KDF: the derived value is the symbolic pair of the inputs, so the
derivation is deterministic and collision-free. -/
structure Derived where
  input : String
  salt : String
deriving DecidableEq, Repr

/-- The fixed application-wide salt of SecurityServiceImpl. -/
def SALT : String := "password_manager_salt_2025"

/-- CryptoJS.PBKDF2(input, salt).toString() under the ideal-KDF model. -/
def pbkdf2 (input salt : String) : Derived := ⟨input, salt⟩

/-- The verification hash the service derives from a master password
(PBKDF2(password, SALT)). -/
def verificationHash (password : String) : Derived := pbkdf2 password SALT

/-- The encryption key the service derives from a master password
(PBKDF2(password + "_encryption", SALT)). -/
def encryptionKeyOf (password : String) : Derived :=
  pbkdf2 (password ++ "_encryption") SALT

/-- A string value handled by the vault: either plaintext or a CryptoJS.AES
ciphertext token (which may be nested by double encryption). -/
inductive Data where
  | plain (s : String)
  | cipher (key : Derived) (payload : Data)
deriving DecidableEq, Repr

/-- CryptoJS.AES.encrypt(data, key).toString(). -/
def aesEncrypt (key : Derived) (d : Data) : Data := .cipher key d

/-- CryptoJS.AES.decrypt(token, key) followed by toString(Utf8): yields the
payload exactly on a token produced under the same key; on a wrong key or a
non-token input the code observes an empty or undecodable result, modelled
as none. -/
def aesDecrypt (key : Derived) : Data → Option Data
  | .cipher k d => if k = key then some d else none
  | .plain _ => none

/-- A stored password record (PasswordEntry): the two sensitive fields
(username and password) are opaque Data payloads. -/
structure PasswordEntry where
  id : String
  website : String
  username : Data
  password : Data
  createdAt : Nat
  updatedAt : Nat
deriving DecidableEq, Repr

/-- The in-memory SecurityState of SecurityServiceImpl. -/
structure SecurityState where
  isLocked : Bool
  masterPasswordHash : Option Derived
  encryptionKey : Option Derived
  autoLockTimer : Option Nat
  lastActivity : Nat
deriving DecidableEq, Repr

/-- The JSON object persisted under localStorage["password_manager_security"]
by saveSecurityState. -/
structure SecurityRecord where
  masterPasswordHash : Option Derived
  lastActivity : Nat
deriving DecidableEq, Repr

/-- The persistent stores: localStorage (the security record) and
chrome.storage.local (the password records). -/
structure Storage where
  security : Option SecurityRecord
  records : List PasswordEntry
deriving DecidableEq, Repr

/-- The full observable world: service state plus persistent storage. -/
structure World where
  state : SecurityState
  storage : Storage
deriving DecidableEq, Repr

/-- The error outcomes of the service, per the thrown Error messages. -/
inductive VaultError where
  | weakPassword (msg : String)
  | noMasterPassword
  | invalidCurrentPassword
  | vaultLocked (msg : String)
  | persistenceFailure
deriving DecidableEq, Repr

def DEFAULT_AUTO_LOCK_MINUTES : Nat := 15

/-- setAutoLockTimer(minutes): clearAutoLockTimer then setTimeout. -/
def setAutoLockTimer (st : SecurityState) (minutes : Nat) : SecurityState :=
  { st with autoLockTimer := some minutes }

/-- clearAutoLockTimer(). -/
def clearAutoLockTimer (st : SecurityState) : SecurityState :=
  { st with autoLockTimer := none }

/-- updateActivity(): refresh lastActivity and, when unlocked, restart the
auto-lock timer. -/
def updateActivity (st : SecurityState) (now : Nat) : SecurityState :=
  let st1 := { st with lastActivity := now }
  if !st1.isLocked then setAutoLockTimer st1 DEFAULT_AUTO_LOCK_MINUTES else st1

/-- saveSecurityState(): writes masterPasswordHash and lastActivity to
localStorage; its internal try/catch swallows failures, so it never throws. -/
def saveSecurityState (w : World) : World :=
  { w with storage := { w.storage with
      security := some ⟨w.state.masterPasswordHash, w.state.lastActivity⟩ } }

/-- loadSecurityState(): if a security record is persisted, install its hash
and recompute the lock flag from the truthiness of that hash, leaving the
in-memory encryption key untouched; a missing record changes nothing. -/
def loadSecurityState (w : World) : World :=
  match w.storage.security with
  | none => w
  | some sec =>
    { w with state := { w.state with
        masterPasswordHash := sec.masterPasswordHash
        isLocked := sec.masterPasswordHash.isSome } }

/-- setMasterPassword(password): rejects an empty or shorter-than-8 password,
otherwise derives the hash and key, unlocks, persists the hash and starts the
auto-lock timer. -/
def setMasterPassword (w : World) (password : String) (now : Nat) :
    Except VaultError World :=
  if password = "" ∨ password.length < 8 then
    .error (.weakPassword "Master password must be at least 8 characters long")
  else
    let st := { w.state with
      masterPasswordHash := some (verificationHash password)
      encryptionKey := some (encryptionKeyOf password)
      isLocked := false
      lastActivity := now }
    let w1 := saveSecurityState { w with state := st }
    .ok { w1 with state := setAutoLockTimer w1.state DEFAULT_AUTO_LOCK_MINUTES }

/-- unlockVault(masterPassword): throws when no hash is set; returns false on
hash mismatch without mutating anything; on match installs the derived key,
unlocks, refreshes activity and restarts the timer. -/
def unlockVault (w : World) (masterPassword : String) (now : Nat) :
    Except VaultError (Bool × World) :=
  match w.state.masterPasswordHash with
  | none => .error .noMasterPassword
  | some storedHash =>
    if verificationHash masterPassword ≠ storedHash then
      .ok (false, w)
    else
      let st := { w.state with
        encryptionKey := some (encryptionKeyOf masterPassword)
        isLocked := false
        lastActivity := now }
      .ok (true, { w with state := setAutoLockTimer st DEFAULT_AUTO_LOCK_MINUTES })

/-- lockVault(): set the lock flag, clear the key, cancel the timer. -/
def lockVault (st : SecurityState) : SecurityState :=
  clearAutoLockTimer { st with isLocked := true, encryptionKey := none }

/-- encryptData(data): throws when no key is in memory (note: the guard is on
the key, not on the lock flag); otherwise refreshes activity and returns the
AES token. -/
def encryptData (w : World) (data : Data) (now : Nat) :
    Except VaultError (Data × World) :=
  match w.state.encryptionKey with
  | none => .error (.vaultLocked "Vault is locked - cannot encrypt data")
  | some key =>
    .ok (aesEncrypt key data, { w with state := updateActivity w.state now })

/-- decryptData(encryptedData): throws when no key is in memory; otherwise
refreshes activity and returns the decryption result, none standing for the
null that the catch branch (or an empty UTF-8 decode) produces. -/
def decryptData (w : World) (encryptedData : Data) (now : Nat) :
    Except VaultError (Option Data × World) :=
  match w.state.encryptionKey with
  | none => .error (.vaultLocked "Vault is locked - cannot decrypt data")
  | some key =>
    .ok (aesDecrypt key encryptedData, { w with state := updateActivity w.state now })

/-- hasMasterPassword(): reloads the persisted security state (mutating the
in-memory lock flag) and reports whether a hash is present. -/
def hasMasterPassword (w : World) : Bool × World :=
  let w1 := loadSecurityState w
  (w1.state.masterPasswordHash.isSome, w1)

/-- resetSecurity(): lockVault, drop the hash, clear chrome.storage.local
(all records), persist the now-empty security state, then remove the
localStorage security item. -/
def resetSecurity (w : World) : World :=
  let st := { lockVault w.state with masterPasswordHash := none }
  let w1 : World := { state := st, storage := { w.storage with records := [] } }
  let w2 := saveSecurityState w1
  { w2 with storage := { w2.storage with security := none } }

/-- decryptSensitiveData of ChromeStoragePasswordService: when unlocked,
decrypt both sensitive fields, falling back to the stored value when
decryption yields nothing; the catch branch (key absent while the flag says
unlocked) returns the entry unchanged. -/
def decryptSensitiveData (st : SecurityState) (e : PasswordEntry) : PasswordEntry :=
  if st.isLocked then e
  else
    match st.encryptionKey with
    | none => e
    | some key =>
      { e with
        password := (aesDecrypt key e.password).getD e.password
        username := (aesDecrypt key e.username).getD e.username }

/-- encryptSensitiveData of ChromeStoragePasswordService: when unlocked,
encrypt both sensitive fields; the catch branch returns the entry unchanged. -/
def encryptSensitiveData (st : SecurityState) (e : PasswordEntry) : PasswordEntry :=
  if st.isLocked then e
  else
    match st.encryptionKey with
    | none => e
    | some key =>
      { e with
        password := aesEncrypt key e.password
        username := aesEncrypt key e.username }

/-- passwordService.getAll(): the decrypted view of the stored records. -/
def getAllRecords (w : World) : List PasswordEntry :=
  w.storage.records.map (decryptSensitiveData w.state)

/-- changeMasterPassword(currentPassword, newPassword): verify the current
password via unlockVault, validate the new length, read all records through
getAll, decrypt the password field again with the old key (a no-op fallback
on the already-decrypted value), install the new key, re-encrypt the password
field of every record, then persist records and hash; when the record write
fails (persistOk = false) the old key is restored in memory and the error is
rethrown. The pair returned carries the result together with the final
in-memory world, since the service mutates state even on some throwing paths. -/
def changeMasterPassword (w : World) (currentPassword newPassword : String)
    (persistOk : Bool) (now : Nat) : Except VaultError Unit × World :=
  match unlockVault w currentPassword now with
  | .error e => (.error e, w)
  | .ok (false, w1) => (.error .invalidCurrentPassword, w1)
  | .ok (true, w1) =>
    if newPassword = "" ∨ newPassword.length < 8 then
      (.error (.weakPassword "New master password must be at least 8 characters long"), w1)
    else
      match w1.state.encryptionKey with
      | none =>
        -- unreachable after a successful unlock, which always installs a key;
        -- here decryptData would throw its locked error
        (.error (.vaultLocked "Vault is locked - cannot decrypt data"), w1)
      | some oldEncryptionKey =>
        let allPasswords := getAllRecords w1
        let decryptedPasswords := allPasswords.map fun p =>
          { p with password := (aesDecrypt oldEncryptionKey p.password).getD p.password }
        let newHash := verificationHash newPassword
        let newEncryptionKey := encryptionKeyOf newPassword
        let st1 := { w1.state with encryptionKey := some newEncryptionKey }
        let reEncryptedPasswords := decryptedPasswords.map fun p =>
          { p with password := aesEncrypt newEncryptionKey p.password }
        if persistOk then
          let st2 := { st1 with
            masterPasswordHash := some newHash
            lastActivity := now }
          let w2 : World :=
            { state := st2,
              storage := { w1.storage with records := reEncryptedPasswords } }
          (.ok (), saveSecurityState w2)
        else
          (.error .persistenceFailure,
            { w1 with state := { st1 with encryptionKey := some oldEncryptionKey } })

/-- The special characters accepted by the password-strength validator. -/
def SPECIALS : List Char := ['@', '$', '!', '%', '*', '?', '&']

/-- Result of the static validateMasterPassword helper. -/
structure ValidationResult where
  isValid : Bool
  message : String
deriving DecidableEq, Repr

/-- The static SecurityServiceImpl.validateMasterPassword: the full
five-condition strength policy. setMasterPassword does not call it. -/
def validateMasterPassword (password : String) : ValidationResult :=
  if password = "" then ⟨false, "Password is required"⟩
  else if password.length < 8 then
    ⟨false, "Password must be at least 8 characters long"⟩
  else if !(password.data.any Char.isLower) then
    ⟨false, "Password must contain at least one lowercase letter"⟩
  else if !(password.data.any Char.isUpper) then
    ⟨false, "Password must contain at least one uppercase letter"⟩
  else if !(password.data.any Char.isDigit) then
    ⟨false, "Password must contain at least one number"⟩
  else if !(password.data.any fun c => SPECIALS.contains c) then
    ⟨false, "Password must contain at least one special character (@$!%*?&)"⟩
  else ⟨true, "Password is strong"⟩

/-- The world at construction time on a fresh profile: the constructor runs
loadSecurityState against empty storage (a no-op) and state starts locked
with no hash and no key. -/
def initialWorld : World :=
  { state := ⟨true, none, none, none, 0⟩,
    storage := { security := none, records := [] } }

/-- Boolean success test for Except results. -/
def exceptIsOk : Except VaultError α → Bool
  | .ok _ => true
  | .error _ => false

/-- encryptData then decryptData of the produced token, threading the world,
keeping only the decryption result. -/
def encryptThenDecrypt (w : World) (d : Data) (n1 n2 : Nat) :
    Except VaultError (Option Data) :=
  match encryptData w d n1 with
  | .error e => .error e
  | .ok (c, w1) =>
    match decryptData w1 c n2 with
    | .error e => .error e
    | .ok (r, _) => .ok r

/-- The key-lock invariant of the spec: the in-memory encryption key is
present exactly when the vault is not locked. -/
abbrev KeyLockInvariant (st : SecurityState) : Prop :=
  st.encryptionKey.isSome = !st.isLocked

/-- The world after setMasterPassword "Abcdef1!" on a fresh profile. -/
def afterSetW : World :=
  (setMasterPassword initialWorld "Abcdef1!" 1).toOption.getD initialWorld

/-- The world after then calling the status query hasMasterPassword. -/
def afterHasW : World := (hasMasterPassword afterSetW).2

/-- The key of the master password used in the concrete traces. -/
def keyOld : Derived := encryptionKeyOf "Abcdef1!"

/-- A stored record whose two sensitive fields are encrypted under keyOld,
as ChromeStoragePasswordService.add would have produced while unlocked. -/
def entryC : PasswordEntry :=
  ⟨"id1", "example.com", .cipher keyOld (.plain "alice"),
    .cipher keyOld (.plain "pw"), 0, 0⟩

/-- An unlocked world holding entryC, reachable by setMasterPassword
"Abcdef1!" followed by adding one record. -/
def worldC : World :=
  { state := ⟨false, some (verificationHash "Abcdef1!"), some keyOld, some 15, 1⟩,
    storage := { security := some ⟨some (verificationHash "Abcdef1!"), 1⟩,
                 records := [entryC] } }

end Vault

namespace BackupCipher

/-- The AES-GCM key that EncryptionService.generateKey derives via WebCrypto
PBKDF2 (SHA-256, 100000 iterations) from a password and a random salt,
modelled as the ideal pair of its inputs. -/
structure GcmKey where
  password : String
  salt : Nat
deriving DecidableEq, Repr

/-- The self-contained base64 token EncryptionService.encrypt produces:
salt, iv and the AES-GCM ciphertext (modelled symbolically as the pair of
the key used and the plaintext payload) concatenated. -/
structure BackupToken where
  salt : Nat
  iv : Nat
  keyUsed : GcmKey
  payload : String
deriving DecidableEq, Repr

/-- EncryptionService.encrypt(data, password): fresh random salt and iv are
drawn by the caller of the model; the key is derived from (password, salt)
and the token embeds salt and iv. -/
def backupEncrypt (data password : String) (salt iv : Nat) : BackupToken :=
  ⟨salt, iv, ⟨password, salt⟩, data⟩

/-- EncryptionService.decrypt(token, password): re-derives the key from the
embedded salt; the authenticated AES-GCM decryption succeeds exactly when
that key equals the one the token was produced under, and otherwise the
catch branch throws. -/
def backupDecrypt (tok : BackupToken) (password : String) : Except String String :=
  if tok.keyUsed = (⟨password, tok.salt⟩ : GcmKey) then .ok tok.payload
  else .error "Failed to decrypt data - invalid password or corrupted data"

end BackupCipher

namespace Vault

/-- A locked world holding a persisted master password, obtained by locking
the vault right after setting the master password. -/
def lockedW : World := { afterSetW with state := lockVault afterSetW.state }

theorem updateActivity_preserves (st : SecurityState) (now : Nat)
    (h : KeyLockInvariant st) : KeyLockInvariant (updateActivity st now) := by
  unfold KeyLockInvariant at h ⊢
  cases hl : st.isLocked <;>
    simp only [updateActivity, setAutoLockTimer, hl, Bool.not_false, Bool.not_true,
      if_true, if_false, Bool.false_eq_true, ite_false, ite_true] <;>
    simpa [hl] using h

theorem unlockVault_correct (w : World) (cur : String) (now : Nat)
    (hH : w.state.masterPasswordHash = some (verificationHash cur)) :
    unlockVault w cur now = .ok (true,
      { w with state := { w.state with
          encryptionKey := some (encryptionKeyOf cur),
          isLocked := false, lastActivity := now,
          autoLockTimer := some DEFAULT_AUTO_LOCK_MINUTES } }) := by
  unfold unlockVault
  rw [hH]
  simp [setAutoLockTimer]

theorem unlockVault_wrong (w : World) (pw : String) (now : Nat) (storedHash : Derived)
    (hH : w.state.masterPasswordHash = some storedHash)
    (hne : verificationHash pw ≠ storedHash) :
    unlockVault w pw now = .ok (false, w) := by
  unfold unlockVault
  rw [hH]
  simp [hne]

theorem setMasterPassword_preserves (w : World) (pw : String) (now : Nat) (w1 : World)
    (hw : setMasterPassword w pw now = .ok w1) : KeyLockInvariant w1.state := by
  unfold setMasterPassword at hw
  by_cases hc : (pw = "" ∨ pw.length < 8)
  · rw [if_pos hc] at hw
    exact Except.noConfusion hw
  · rw [if_neg hc] at hw
    injection hw with h1
    subst h1
    rfl

theorem unlockVault_preserves (w : World) (pw : String) (now : Nat) (b : Bool)
    (w1 : World) (h : KeyLockInvariant w.state)
    (hw : unlockVault w pw now = .ok (b, w1)) : KeyLockInvariant w1.state := by
  cases hm : w.state.masterPasswordHash with
  | none => unfold unlockVault at hw; rw [hm] at hw; exact Except.noConfusion hw
  | some sh =>
    by_cases hv : verificationHash pw = sh
    · subst hv
      rw [unlockVault_correct w pw now hm] at hw
      injection hw with h1
      have h2 := congrArg Prod.snd h1
      simp only at h2
      subst h2
      rfl
    · rw [unlockVault_wrong w pw now sh hm hv] at hw
      injection hw with h1
      have h2 := congrArg Prod.snd h1
      simp only at h2
      subst h2
      exact h

theorem changeMasterPassword_preserves (w : World) (cur new : String)
    (persistOk : Bool) (now : Nat) (h : KeyLockInvariant w.state) :
    KeyLockInvariant (changeMasterPassword w cur new persistOk now).2.state := by
  unfold changeMasterPassword
  cases hm : w.state.masterPasswordHash with
  | none =>
    unfold unlockVault
    rw [hm]
    exact h
  | some sh =>
    by_cases hv : verificationHash cur = sh
    · subst hv
      rw [unlockVault_correct w cur now hm]
      dsimp only
      by_cases hn : (new = "" ∨ new.length < 8)
      · rw [if_pos hn]
        rfl
      · rw [if_neg hn]
        cases persistOk <;> rfl
    · rw [unlockVault_wrong w cur now sh hm hv]
      exact h

theorem encryptData_preserves (w : World) (d : Data) (now : Nat) (t : Data)
    (w1 : World) (h : KeyLockInvariant w.state)
    (hw : encryptData w d now = .ok (t, w1)) : KeyLockInvariant w1.state := by
  unfold encryptData at hw
  cases hk : w.state.encryptionKey with
  | none => rw [hk] at hw; exact Except.noConfusion hw
  | some key =>
    rw [hk] at hw
    injection hw with h1
    have h2 := congrArg Prod.snd h1
    simp only at h2
    subst h2
    exact updateActivity_preserves w.state now h

theorem decryptData_preserves (w : World) (c : Data) (now : Nat) (r : Option Data)
    (w1 : World) (h : KeyLockInvariant w.state)
    (hw : decryptData w c now = .ok (r, w1)) : KeyLockInvariant w1.state := by
  unfold decryptData at hw
  cases hk : w.state.encryptionKey with
  | none => rw [hk] at hw; exact Except.noConfusion hw
  | some key =>
    rw [hk] at hw
    injection hw with h1
    have h2 := congrArg Prod.snd h1
    simp only at h2
    subst h2
    exact updateActivity_preserves w.state now h

end Vault

namespace Vault

/-- C1 (counterexample): the claimed invariant — encryptionKey present iff
not locked, and every listed public operation preserving it — fails on the
code: starting from a fresh world, setMasterPassword establishes the
invariant, but the subsequent hasMasterPassword call flips isLocked to true
while leaving the encryption key in memory, so the vault is locked with a
live key and no key-clearing happened in that step. -/
theorem c1_counterexample :
    setMasterPassword initialWorld "Abcdef1!" 1 = .ok afterSetW ∧
    KeyLockInvariant afterSetW.state ∧
    afterHasW = (hasMasterPassword afterSetW).2 ∧
    afterHasW.state.isLocked = true ∧
    afterHasW.state.encryptionKey = some keyOld ∧
    afterHasW.state.encryptionKey.isSome = true := by decide

/-- C1 (amended): all public operations of the service EXCEPT
hasMasterPassword preserve the key-lock invariant (the encryption key is
present exactly when the vault is unlocked), and lockVault clears the key in
the same step in which it sets the lock flag; hasMasterPassword, through
loadSecurityState, can set isLocked to true without clearing the key and so
does not preserve the invariant. -/
theorem c1_amended_invariant (w : World) (pw cur new : String) (now : Nat)
    (d c : Data) (persistOk : Bool) (h : KeyLockInvariant w.state) :
    (∀ w1, setMasterPassword w pw now = .ok w1 → KeyLockInvariant w1.state) ∧
    (∀ b w1, unlockVault w pw now = .ok (b, w1) → KeyLockInvariant w1.state) ∧
    KeyLockInvariant (lockVault w.state) ∧
    (lockVault w.state).isLocked = true ∧
    (lockVault w.state).encryptionKey = none ∧
    KeyLockInvariant (changeMasterPassword w cur new persistOk now).2.state ∧
    KeyLockInvariant (resetSecurity w).state ∧
    (∀ t w1, encryptData w d now = .ok (t, w1) → KeyLockInvariant w1.state) ∧
    (∀ r w1, decryptData w c now = .ok (r, w1) → KeyLockInvariant w1.state) :=
  ⟨fun w1 hw => setMasterPassword_preserves w pw now w1 hw,
   fun b w1 hw => unlockVault_preserves w pw now b w1 h hw,
   rfl, rfl, rfl,
   changeMasterPassword_preserves w cur new persistOk now h,
   rfl,
   fun t w1 hw => encryptData_preserves w d now t w1 h hw,
   fun r w1 hw => decryptData_preserves w c now r w1 h hw⟩

/-- C1 (witness): the amended invariant theorem applied to the fresh world. -/
theorem c1_amended_invariant_witness :
    KeyLockInvariant (lockVault initialWorld.state) ∧
    KeyLockInvariant
      (changeMasterPassword initialWorld "Abcdef1!" "NewPass1!" true 0).2.state :=
  ⟨(c1_amended_invariant initialWorld "Abcdef1!" "Abcdef1!" "NewPass1!" 0
      (.plain "x") (.plain "x") true (by decide)).2.2.1,
   (c1_amended_invariant initialWorld "Abcdef1!" "Abcdef1!" "NewPass1!" 0
      (.plain "x") (.plain "x") true (by decide)).2.2.2.2.2.1⟩

/-- C2 (counterexample): "whenever the vault is locked, encryptData and
decryptData fail with VaultLockedError" is false: in the reachable state
after setMasterPassword followed by hasMasterPassword the lock flag is true
yet both operations succeed, because the code guards on the key, not on the
flag. -/
theorem c2_counterexample :
    afterHasW.state.isLocked = true ∧
    (encryptData afterHasW (.plain "x") 2).map Prod.fst =
      .ok (.cipher keyOld (.plain "x")) ∧
    (decryptData afterHasW (.cipher keyOld (.plain "x")) 2).map Prod.fst =
      .ok (some (.plain "x")) := by decide

/-- C2 (amended): encryptData and decryptData fail with the vault-locked
error exactly when the in-memory encryption key is absent; in particular
immediately after lockVault (which clears the key) both operations fail.
A locked state that still holds a key (reachable via hasMasterPassword)
lets both succeed. -/
theorem c2_amended_locked_errors (w : World) (d c : Data) (now : Nat) :
    (w.state.encryptionKey = none ↔
      encryptData w d now =
        .error (.vaultLocked "Vault is locked - cannot encrypt data")) ∧
    (w.state.encryptionKey = none ↔
      decryptData w c now =
        .error (.vaultLocked "Vault is locked - cannot decrypt data")) ∧
    encryptData { w with state := lockVault w.state } d now =
      .error (.vaultLocked "Vault is locked - cannot encrypt data") ∧
    decryptData { w with state := lockVault w.state } c now =
      .error (.vaultLocked "Vault is locked - cannot decrypt data") := by
  refine ⟨⟨fun hk => ?_, fun he => ?_⟩, ⟨fun hk => ?_, fun he => ?_⟩, rfl, rfl⟩
  · unfold encryptData
    rw [hk]
  · cases hk : w.state.encryptionKey with
    | none => rfl
    | some key =>
      unfold encryptData at he
      rw [hk] at he
      exact Except.noConfusion he
  · unfold decryptData
    rw [hk]
  · cases hk : w.state.encryptionKey with
    | none => rfl
    | some key =>
      unfold decryptData at he
      rw [hk] at he
      exact Except.noConfusion he

/-- C3 (code bug): after a successful changeMasterPassword from an unlocked
world whose stored record has both sensitive fields encrypted under the old
key, the persisted record has its password re-encrypted under the new key
but its USERNAME written back in plaintext: the change flow re-encrypts only
the password field, while getAll had decrypted both, so the username field
is not a ciphertext at all — contradicting the all-fields re-encryption the
spec requires and the encryption that add/update apply to usernames. -/
theorem c3_username_plaintext_after_change :
    (changeMasterPassword worldC "Abcdef1!" "NewPass1!" true 2).1 = .ok () ∧
    (changeMasterPassword worldC "Abcdef1!" "NewPass1!" true 2).2.storage.records =
      [⟨"id1", "example.com", .plain "alice",
        .cipher (encryptionKeyOf "NewPass1!") (.plain "pw"), 0, 0⟩] ∧
    (changeMasterPassword worldC "Abcdef1!" "NewPass1!" true 2).2.storage.records.map
      (fun e => e.username) = [.plain "alice"] :=
  ⟨by decide, by decide, by decide⟩

/-- C4: when the persistence step of changeMasterPassword fails, the old
encryption key is restored in memory before the error is reported: the vault
stays unlocked, the storage is untouched, and any ciphertext produced under
the old key still decrypts to its plaintext. -/
theorem c4_rollback_on_persist_failure (w : World) (cur new : String)
    (now n2 : Nat) (d : Data)
    (hH : w.state.masterPasswordHash = some (verificationHash cur))
    (hlen : 8 ≤ new.length) :
    (changeMasterPassword w cur new false now).1 = .error .persistenceFailure ∧
    (changeMasterPassword w cur new false now).2.state.isLocked = false ∧
    (changeMasterPassword w cur new false now).2.state.encryptionKey =
      some (encryptionKeyOf cur) ∧
    (changeMasterPassword w cur new false now).2.storage = w.storage ∧
    (decryptData (changeMasterPassword w cur new false now).2
        (aesEncrypt (encryptionKeyOf cur) d) n2).map Prod.fst = .ok (some d) := by
  have hn : ¬(new = "" ∨ new.length < 8) := by
    rintro (h1 | h1)
    · subst h1
      exact absurd hlen (by decide)
    · omega
  unfold changeMasterPassword
  rw [unlockVault_correct w cur now hH]
  dsimp only
  rw [if_neg hn]
  refine ⟨rfl, rfl, rfl, rfl, ?_⟩
  simp [decryptData, updateActivity, setAutoLockTimer, aesEncrypt, aesDecrypt,
    Except.map]

/-- C4 (witness): the rollback theorem evaluated on the concrete unlocked
world holding one encrypted record. -/
theorem c4_rollback_witness :
    (changeMasterPassword worldC "Abcdef1!" "NewPass1!" false 2).1 =
      .error .persistenceFailure ∧
    (changeMasterPassword worldC "Abcdef1!" "NewPass1!" false 2).2.state.isLocked
      = false ∧
    (changeMasterPassword worldC "Abcdef1!" "NewPass1!" false 2).2.state.encryptionKey
      = some (encryptionKeyOf "Abcdef1!") ∧
    (changeMasterPassword worldC "Abcdef1!" "NewPass1!" false 2).2.storage =
      worldC.storage ∧
    (decryptData (changeMasterPassword worldC "Abcdef1!" "NewPass1!" false 2).2
        (aesEncrypt (encryptionKeyOf "Abcdef1!") (.plain "z")) 3).map Prod.fst =
      .ok (some (.plain "z")) :=
  c4_rollback_on_persist_failure worldC "Abcdef1!" "NewPass1!" 2 3 (.plain "z")
    (by decide) (by decide)

/-- C5 (counterexample): setMasterPassword accepts "aaaaaaaa", a password
with no uppercase letter, no digit and no special character, so the claimed
rejection of passwords lacking those character classes is false. -/
theorem c5_counterexample :
    exceptIsOk (setMasterPassword initialWorld "aaaaaaaa" 0) = true ∧
    "aaaaaaaa".data.any Char.isUpper = false ∧
    "aaaaaaaa".data.any Char.isDigit = false ∧
    ("aaaaaaaa".data.any fun ch => SPECIALS.contains ch) = false := by decide

/-- C5 (amended): setMasterPassword itself enforces only non-emptiness and
minimum length 8 (hence "short1!" fails and "Abcdef1!" succeeds); the full
five-condition policy (length, lowercase, uppercase, digit, special
character from @$!%*?&) lives in the separate static validateMasterPassword
helper, which setMasterPassword does not invoke. -/
theorem c5_amended_length_only (w : World) (pw : String) (now : Nat) :
    (exceptIsOk (setMasterPassword w pw now) = true ↔ pw ≠ "" ∧ 8 ≤ pw.length) ∧
    ((validateMasterPassword pw).isValid = true ↔
      pw ≠ "" ∧ 8 ≤ pw.length ∧ pw.data.any Char.isLower = true ∧
      pw.data.any Char.isUpper = true ∧ pw.data.any Char.isDigit = true ∧
      (pw.data.any fun ch => SPECIALS.contains ch) = true) ∧
    setMasterPassword initialWorld "short1!" now =
      .error (.weakPassword "Master password must be at least 8 characters long") ∧
    exceptIsOk (setMasterPassword initialWorld "Abcdef1!" now) = true := by
  refine ⟨?_, ?_, rfl, rfl⟩
  · unfold setMasterPassword
    by_cases hc : (pw = "" ∨ pw.length < 8)
    · rw [if_pos hc]
      simp only [exceptIsOk, Bool.false_eq_true, false_iff]
      rintro ⟨h1, h2⟩
      rcases hc with h3 | h3
      · exact h1 h3
      · omega
    · rw [if_neg hc]
      simp only [exceptIsOk, true_iff]
      rcases not_or.mp hc with ⟨h1, h2⟩
      exact ⟨h1, by omega⟩
  · unfold validateMasterPassword
    split_ifs with h1 h2 h3 h4 h5 h6 <;> simp_all

/-- C6: in a locked state with a persisted hash, unlockVault succeeds,
installs the derived key and unlocks exactly when the hash derived from the
candidate equals the persisted hash; on mismatch it returns false and leaves
the world completely unchanged. -/
theorem c6_unlock_iff_hash_match (w : World) (pw : String) (now : Nat)
    (storedHash : Derived)
    (_hL : w.state.isLocked = true)
    (hH : w.state.masterPasswordHash = some storedHash) :
    (verificationHash pw = storedHash →
      unlockVault w pw now = .ok (true,
        { w with state := { w.state with
            encryptionKey := some (encryptionKeyOf pw),
            isLocked := false, lastActivity := now,
            autoLockTimer := some DEFAULT_AUTO_LOCK_MINUTES } })) ∧
    (verificationHash pw ≠ storedHash →
      unlockVault w pw now = .ok (false, w)) := by
  constructor
  · intro he
    subst he
    exact unlockVault_correct w pw now hH
  · intro hne
    exact unlockVault_wrong w pw now storedHash hH hne

/-- C6 (witness): the unlock theorem evaluated on a concrete locked world,
at the correct password and at a wrong one. -/
theorem c6_unlock_witness :
    unlockVault lockedW "Abcdef1!" 5 = .ok (true,
      { lockedW with state := { lockedW.state with
          encryptionKey := some (encryptionKeyOf "Abcdef1!"),
          isLocked := false, lastActivity := 5,
          autoLockTimer := some DEFAULT_AUTO_LOCK_MINUTES } }) ∧
    unlockVault lockedW "Wrong1!pw" 5 = .ok (false, lockedW) :=
  ⟨(c6_unlock_iff_hash_match lockedW "Abcdef1!" 5 (verificationHash "Abcdef1!")
      (by decide) (by decide)).1 rfl,
   (c6_unlock_iff_hash_match lockedW "Wrong1!pw" 5 (verificationHash "Abcdef1!")
      (by decide) (by decide)).2 (by decide)⟩

/-- C7: round-trip — with a key in memory, decryptData recovers exactly the
data that encryptData produced, threading the service state between the two
calls; and the backup cipher decrypts its own token back to the plaintext
under the same password. -/
theorem c7_roundtrip (w : World) (key : Derived) (d : Data) (n1 n2 : Nat)
    (s pw : String) (salt iv : Nat)
    (hk : w.state.encryptionKey = some key) :
    encryptThenDecrypt w d n1 n2 = .ok (some d) ∧
    BackupCipher.backupDecrypt (BackupCipher.backupEncrypt s pw salt iv) pw =
      .ok s := by
  constructor
  · cases hl : w.state.isLocked <;>
      simp [encryptThenDecrypt, encryptData, decryptData, updateActivity,
        setAutoLockTimer, aesEncrypt, aesDecrypt, hk, hl, Except.map]
  · unfold BackupCipher.backupDecrypt BackupCipher.backupEncrypt
    rw [if_pos rfl]

/-- C7 (witness): the round trip evaluated on the concrete unlocked world. -/
theorem c7_roundtrip_witness :
    encryptThenDecrypt worldC (.plain "secret") 3 4 = .ok (some (.plain "secret")) ∧
    BackupCipher.backupDecrypt (BackupCipher.backupEncrypt "doc" "BackupPw1!" 7 8)
      "BackupPw1!" = .ok "doc" :=
  c7_roundtrip worldC keyOld (.plain "secret") 3 4 "doc" "BackupPw1!" 7 8 (by decide)

/-- C8: purpose separation of key derivation — for every password the
verification hash (derived from the password itself) differs from the
encryption key (derived from the password suffixed with "_encryption"),
because the ideal KDF is injective and the two inputs differ; and for a
fixed password each derivation is deterministic. -/
theorem c8_purpose_separation (p : String) :
    verificationHash p ≠ encryptionKeyOf p ∧
    (∀ q, p = q →
      verificationHash p = verificationHash q ∧
      encryptionKeyOf p = encryptionKeyOf q) := by
  constructor
  · intro h
    have h2 : p = p ++ "_encryption" := congrArg Derived.input h
    have hlen := congrArg String.length h2
    rw [String.length_append] at hlen
    have h11 : ("_encryption" : String).length = 11 := rfl
    rw [h11] at hlen
    omega
  · intro q hq
    subst hq
    exact ⟨rfl, rfl⟩

/-- C8 (witness): purpose separation evaluated at a concrete password. -/
theorem c8_purpose_separation_witness :
    verificationHash "Abcdef1!" ≠ encryptionKeyOf "Abcdef1!" ∧
    verificationHash "Abcdef1!" = verificationHash "Abcdef1!" :=
  ⟨(c8_purpose_separation "Abcdef1!").1,
   ((c8_purpose_separation "Abcdef1!").2 "Abcdef1!" rfl).1⟩

/-- C9: setMasterPassword is accepted in EVERY state — no check of any
existing master password — for any password of length at least 8: it
overwrites the persisted hash and the in-memory key, unlocks the vault, and
leaves the stored password records untouched (no re-encryption). -/
theorem c9_set_master_password_any_state (w : World) (pw : String) (now : Nat)
    (hlen : 8 ≤ pw.length) :
    ∃ w1, setMasterPassword w pw now = .ok w1 ∧
      w1.state.masterPasswordHash = some (verificationHash pw) ∧
      w1.state.encryptionKey = some (encryptionKeyOf pw) ∧
      w1.state.isLocked = false ∧
      w1.storage.security = some ⟨some (verificationHash pw), now⟩ ∧
      w1.storage.records = w.storage.records := by
  have hc : ¬(pw = "" ∨ pw.length < 8) := by
    rintro (h1 | h1)
    · subst h1
      exact absurd hlen (by decide)
    · omega
  unfold setMasterPassword
  rw [if_neg hc]
  exact ⟨_, rfl, rfl, rfl, rfl, rfl, rfl⟩

/-- C9 (witness): overwriting the master password from the locked world with
an existing (different) master password, records untouched. -/
theorem c9_witness :
    ∃ w1, setMasterPassword worldC "NewPass1!" 9 = .ok w1 ∧
      w1.state.masterPasswordHash = some (verificationHash "NewPass1!") ∧
      w1.state.encryptionKey = some (encryptionKeyOf "NewPass1!") ∧
      w1.state.isLocked = false ∧
      w1.storage.security = some ⟨some (verificationHash "NewPass1!"), 9⟩ ∧
      w1.storage.records = worldC.storage.records :=
  c9_set_master_password_any_state worldC "NewPass1!" 9 (by decide)

/-- C10: hasMasterPassword is not read-only — whenever a security record
with a hash is persisted, it returns true, sets the in-memory lock flag to
true (whatever it was before) and leaves the in-memory encryption key
exactly as it was. -/
theorem c10_has_master_password_locks (w : World) (sec : SecurityRecord)
    (dh : Derived)
    (hs : w.storage.security = some sec)
    (hh : sec.masterPasswordHash = some dh) :
    (hasMasterPassword w).1 = true ∧
    (hasMasterPassword w).2.state.isLocked = true ∧
    (hasMasterPassword w).2.state.encryptionKey = w.state.encryptionKey := by
  unfold hasMasterPassword loadSecurityState
  rw [hs]
  dsimp only
  rw [hh]
  exact ⟨rfl, rfl, rfl⟩

/-- C10 (witness): calling hasMasterPassword on the unlocked world right
after setMasterPassword flips the lock flag to true and keeps the key. -/
theorem c10_witness :
    (hasMasterPassword afterSetW).1 = true ∧
    (hasMasterPassword afterSetW).2.state.isLocked = true ∧
    (hasMasterPassword afterSetW).2.state.encryptionKey =
      afterSetW.state.encryptionKey :=
  c10_has_master_password_locks afterSetW
    ⟨some (verificationHash "Abcdef1!"), 1⟩ (verificationHash "Abcdef1!")
    (by decide) (by decide)

end Vault
